import Mathlib

/-!
Verification of the wifi-tui core against its specification.

The development shallowly embeds the relevant Rust source files:
* `src/nmcli.rs` — terse-line parsing, scan deduplication/sorting, error
  classification (`friendly_error`, `error_needs_password`);
* `src/app.rs` — the `App` state reducer (key handling, tick handling,
  task-result handling) together with the tasks it dispatches to the worker.

Rust `String` values are modelled as `List Char`, `u8`/`u32`/`usize` as `Nat`
(with an explicit `% 2^32` where the code increments a `u32`), `Result` as
`Except`, and the scan `HashMap` as an association list in first-insertion
order.  Stateful handlers become pure functions `App → ... → App × List Task`,
where the returned list records the `send_task` calls in order.
-/

set_option maxHeartbeats 1000000
set_option maxRecDepth 10000

namespace WifiTui

/-- Rust strings are modelled as lists of characters. -/
abbrev Str := List Char

/-- Substring containment, modelling Rust `str::contains` with a string pattern. -/
def containsSub (s pat : Str) : Bool :=
  s.tails.any fun t => pat.isPrefixOf t

/-! ### The terse-line parser (`parse_terse_line`, src/nmcli.rs:285-310) -/

/-- The loop of `parse_terse_line`: `cur` is the field currently being built
(Rust `current`).  A backslash peeks at the next character; if it is a colon,
both are consumed and a literal colon is pushed; otherwise the backslash is
pushed literally.  An unescaped colon ends the current field.  At the end of
input the current field is pushed. -/
def parseAux : List Char → Str → List Str
  | [], cur => [cur]
  | c :: rest, cur =>
    if c = '\\' then
      match rest with
      | c2 :: rest2 =>
        if c2 = ':' then parseAux rest2 (cur ++ [':'])
        else parseAux (c2 :: rest2) (cur ++ ['\\'])
      | [] => [cur ++ ['\\']]
    else if c = ':' then cur :: parseAux rest []
    else parseAux rest (cur ++ [c])

/-- `parse_terse_line` from src/nmcli.rs. -/
def parse_terse_line (line : List Char) : List Str := parseAux line []

/-! ### Specification-side splitter (spec §4.1, stated in the spec's words) -/

/-- A token of the field grammar: a field separator or a literal character. -/
inductive Tok where
  | sep : Tok
  | chr : Char → Tok
deriving DecidableEq

/-- Whether a token is the field separator. -/
def Tok.isSep : Tok → Bool
  | .sep => true
  | .chr _ => false

/-- Specification-side tokenizer (spec §4.1): a backslash immediately followed
by a colon is an escape producing a literal colon; any other backslash is
passed through literally; an unescaped colon is a separator. -/
def tokenize : List Char → List Tok
  | [] => []
  | c :: rest =>
    if c = '\\' then
      match rest with
      | c2 :: rest2 =>
        if c2 = ':' then .chr ':' :: tokenize rest2
        else .chr '\\' :: tokenize (c2 :: rest2)
      | [] => [.chr '\\']
    else if c = ':' then .sep :: tokenize rest
    else .chr c :: tokenize rest

/-- Specification-side splitter: fields between separators, where an empty
segment yields an empty string element, never dropped. -/
def fieldsOf : List Tok → List Str
  | [] => [[]]
  | .sep :: ts => [] :: fieldsOf ts
  | .chr c :: ts =>
    match fieldsOf ts with
    | [] => [[c]]
    | f :: fs => (c :: f) :: fs

/-- The splitter described by the spec's words in §4.1. -/
def specSplitLine (line : List Char) : List Str := fieldsOf (tokenize line)

theorem parseAux_esc (rest2 : List Char) (cur : Str) :
    parseAux ('\\' :: ':' :: rest2) cur = parseAux rest2 (cur ++ [':']) := by
  simp [parseAux]

theorem parseAux_bs (c2 : Char) (rest2 : List Char) (cur : Str) (hc : c2 ≠ ':') :
    parseAux ('\\' :: c2 :: rest2) cur = parseAux (c2 :: rest2) (cur ++ ['\\']) := by
  simp [parseAux, hc]

theorem parseAux_bs_end (cur : Str) : parseAux ['\\'] cur = [cur ++ ['\\']] := by
  simp [parseAux]

theorem parseAux_colon (rest : List Char) (cur : Str) :
    parseAux (':' :: rest) cur = cur :: parseAux rest [] := by
  unfold parseAux
  rw [if_neg (show ¬(':' = '\\') by decide), if_pos rfl, ← parseAux.eq_def]

theorem parseAux_chr (c : Char) (rest : List Char) (cur : Str)
    (hb : c ≠ '\\') (hc : c ≠ ':') :
    parseAux (c :: rest) cur = parseAux rest (cur ++ [c]) := by
  unfold parseAux
  rw [if_neg hb, if_neg hc, ← parseAux.eq_def]

theorem tokenize_esc (rest2 : List Char) :
    tokenize ('\\' :: ':' :: rest2) = .chr ':' :: tokenize rest2 := by
  simp [tokenize]

theorem tokenize_bs (c2 : Char) (rest2 : List Char) (hc : c2 ≠ ':') :
    tokenize ('\\' :: c2 :: rest2) = .chr '\\' :: tokenize (c2 :: rest2) := by
  simp [tokenize, hc]

theorem tokenize_bs_end : tokenize ['\\'] = [.chr '\\'] := by
  simp [tokenize]

theorem tokenize_colon (rest : List Char) :
    tokenize (':' :: rest) = .sep :: tokenize rest := by
  unfold tokenize
  rw [if_neg (show ¬(':' = '\\') by decide), if_pos rfl, ← tokenize.eq_def]

theorem tokenize_chr (c : Char) (rest : List Char) (hb : c ≠ '\\') (hc : c ≠ ':') :
    tokenize (c :: rest) = .chr c :: tokenize rest := by
  unfold tokenize
  rw [if_neg hb, if_neg hc, ← tokenize.eq_def]

theorem fieldsOf_ne_nil : ∀ ts : List Tok, fieldsOf ts ≠ []
  | [] => by simp [fieldsOf]
  | .sep :: ts => by simp [fieldsOf]
  | .chr c :: ts => by
    simp only [fieldsOf]
    cases h : fieldsOf ts <;> simp

/-- Prepending accumulated text onto the first field of a split. -/
def consField (cur : Str) : List Str → List Str
  | [] => [cur]
  | f :: fs => (cur ++ f) :: fs

theorem consField_chr (cur : Str) (c : Char) (ts : List Tok) :
    consField cur (fieldsOf (.chr c :: ts)) = consField (cur ++ [c]) (fieldsOf ts) := by
  cases h : fieldsOf ts with
  | nil => exact absurd h (fieldsOf_ne_nil ts)
  | cons f fs => simp [fieldsOf, h, consField]

theorem parseAux_spec_le : ∀ (n : Nat) (l : List Char), l.length ≤ n →
    ∀ cur : Str, parseAux l cur = consField cur (specSplitLine l) := by
  intro n
  induction n with
  | zero =>
    intro l hl cur
    have : l = [] := List.eq_nil_of_length_eq_zero (Nat.le_zero.mp hl)
    subst this
    simp [parseAux, specSplitLine, tokenize, fieldsOf, consField]
  | succ n ih =>
    intro l hl cur
    cases l with
    | nil => simp [parseAux, specSplitLine, tokenize, fieldsOf, consField]
    | cons c rest =>
      by_cases hb : c = '\\'
      · subst hb
        cases rest with
        | nil =>
          simp [parseAux_bs_end, specSplitLine, tokenize_bs_end, fieldsOf, consField]
        | cons c2 rest2 =>
          by_cases hc : c2 = ':'
          · subst hc
            have h2 : rest2.length ≤ n := by simp at hl; omega
            rw [parseAux_esc, ih rest2 h2 (cur ++ [':']),
              specSplitLine, specSplitLine, tokenize_esc, consField_chr]
          · have h2 : (c2 :: rest2).length ≤ n := by simp at hl ⊢; omega
            rw [parseAux_bs _ _ _ hc, ih (c2 :: rest2) h2 (cur ++ ['\\']),
              specSplitLine, specSplitLine, tokenize_bs _ _ hc, consField_chr]
      · by_cases hcol : c = ':'
        · subst hcol
          have h2 : rest.length ≤ n := by simp at hl; omega
          rw [parseAux_colon, ih rest h2 [],
            specSplitLine, specSplitLine, tokenize_colon, fieldsOf]
          cases h : fieldsOf (tokenize rest) with
          | nil => exact absurd h (fieldsOf_ne_nil _)
          | cons f fs => simp [consField, h]
        · have h2 : rest.length ≤ n := by simp at hl; omega
          rw [parseAux_chr _ _ _ hb hcol, ih rest h2 (cur ++ [c]),
            specSplitLine, specSplitLine, tokenize_chr _ _ hb hcol, consField_chr]

theorem parse_spec_eq (l : List Char) : parse_terse_line l = specSplitLine l := by
  have h := parseAux_spec_le l.length l le_rfl []
  rw [parse_terse_line, h]
  cases hf : specSplitLine l with
  | nil => exact absurd hf (fieldsOf_ne_nil _)
  | cons f fs => simp [consField]

/-- C6: for every input line, the terse-line parser splits on unescaped colons
into an ordered sequence of fields — `\:` yields a literal colon and is not a
separator, any other backslash passes through literally, and empty segments
are kept — it agrees with the splitter stated in the spec's words, and parsing
`*:My\:Wifi:85:WPA2` yields the four fields `*`, `My:Wifi`, `85`, `WPA2`. -/
theorem claim_C6_parser_fields :
    (∀ l : List Char, parse_terse_line l = specSplitLine l) ∧
    parse_terse_line ("*:My\\:Wifi:85:WPA2".data) =
      ["*".data, "My:Wifi".data, "85".data, "WPA2".data] :=
  ⟨parse_spec_eq, by decide⟩

/-! ### Totality and shape of the parser (claim C10) -/

/-- The number of unescaped colon separators of a line. -/
def sepCount (l : List Char) : Nat := ((tokenize l).filter Tok.isSep).length

/-- Append a character to the last field of a split. -/
def appendLastChar (c : Char) : List Str → List Str
  | [] => [[c]]
  | [f] => [f ++ [c]]
  | f :: fs => f :: appendLastChar c fs

theorem fieldsOf_length (ts : List Tok) :
    (fieldsOf ts).length = 1 + ((ts.filter Tok.isSep)).length := by
  induction ts with
  | nil => simp [fieldsOf]
  | cons t ts ih =>
    cases t with
    | sep => simp [fieldsOf, List.filter, Tok.isSep]; omega
    | chr c =>
      cases h : fieldsOf ts with
      | nil => exact absurd h (fieldsOf_ne_nil ts)
      | cons f fs =>
        simp only [fieldsOf, h, List.filter, Tok.isSep]
        rw [h] at ih
        simpa using ih

theorem tokenize_append_backslash : ∀ (n : Nat) (l : List Char), l.length ≤ n →
    tokenize (l ++ ['\\']) = tokenize l ++ [.chr '\\'] := by
  intro n
  induction n with
  | zero =>
    intro l hl
    have : l = [] := List.eq_nil_of_length_eq_zero (Nat.le_zero.mp hl)
    subst this
    simp [tokenize]
  | succ n ih =>
    intro l hl
    cases l with
    | nil => simp [tokenize]
    | cons c rest =>
      by_cases hb : c = '\\'
      · subst hb
        cases rest with
        | nil =>
          show tokenize ('\\' :: '\\' :: []) = tokenize ['\\'] ++ [.chr '\\']
          rw [tokenize_bs _ _ (by decide), tokenize_bs_end]
          rfl
        | cons c2 rest2 =>
          by_cases hc : c2 = ':'
          · subst hc
            have h2 : rest2.length ≤ n := by simp at hl; omega
            show tokenize ('\\' :: ':' :: (rest2 ++ ['\\'])) = _
            rw [tokenize_esc, tokenize_esc, ih rest2 h2]
            simp
          · have h2 : (c2 :: rest2).length ≤ n := by simp at hl ⊢; omega
            show tokenize ('\\' :: c2 :: (rest2 ++ ['\\'])) = _
            rw [tokenize_bs _ _ hc, tokenize_bs _ _ hc]
            have := ih (c2 :: rest2) h2
            rw [List.cons_append] at this
            rw [this]
            simp
      · by_cases hcol : c = ':'
        · subst hcol
          have h2 : rest.length ≤ n := by simp at hl; omega
          show tokenize (':' :: (rest ++ ['\\'])) = _
          rw [tokenize_colon, tokenize_colon, ih rest h2]
          simp
        · have h2 : rest.length ≤ n := by simp at hl; omega
          show tokenize (c :: (rest ++ ['\\'])) = _
          rw [tokenize_chr _ _ hb hcol, tokenize_chr _ _ hb hcol, ih rest h2]
          simp

theorem fieldsOf_append_chr (c : Char) (ts : List Tok) :
    fieldsOf (ts ++ [.chr c]) = appendLastChar c (fieldsOf ts) := by
  induction ts with
  | nil => simp [fieldsOf, appendLastChar]
  | cons t ts ih =>
    cases t with
    | sep =>
      rw [List.cons_append]
      show [] :: fieldsOf (ts ++ [.chr c]) = appendLastChar c ([] :: fieldsOf ts)
      rw [ih]
      cases h : fieldsOf ts with
      | nil => exact absurd h (fieldsOf_ne_nil ts)
      | cons f fs => simp [appendLastChar]
    | chr d =>
      rw [List.cons_append]
      show fieldsOf (.chr d :: (ts ++ [.chr c])) = appendLastChar c (fieldsOf (.chr d :: ts))
      cases h : fieldsOf ts with
      | nil => exact absurd h (fieldsOf_ne_nil ts)
      | cons f fs =>
        rw [h] at ih
        cases fs with
        | nil =>
          simp [fieldsOf, ih, h, appendLastChar]
        | cons g gs =>
          simp [fieldsOf, ih, h, appendLastChar]

/-- C10: the terse-line parser is total and returns a non-empty sequence whose
length is one plus the number of unescaped colon separators; the empty line
yields a single empty field; a backslash at the very end of the line is kept
as a literal backslash in the last field. -/
theorem claim_C10_parser_total_shape :
    (∀ l : List Char, parse_terse_line l ≠ [] ∧
        (parse_terse_line l).length = 1 + sepCount l) ∧
    parse_terse_line [] = [[]] ∧
    (∀ l : List Char,
        parse_terse_line (l ++ ['\\']) = appendLastChar '\\' (parse_terse_line l)) := by
  refine ⟨fun l => ?_, by decide, fun l => ?_⟩
  · rw [parse_spec_eq, specSplitLine, sepCount]
    exact ⟨fieldsOf_ne_nil _, fieldsOf_length _⟩
  · rw [parse_spec_eq, parse_spec_eq, specSplitLine, specSplitLine,
      tokenize_append_backslash l.length l le_rfl, fieldsOf_append_chr]

/-! ### Error classification (`friendly_error`, `error_needs_password`, src/nmcli.rs:280-334) -/

/-- `friendly_error` from src/nmcli.rs: deterministic substring matching over
the raw nmcli diagnostic, in the source's branch order. -/
def friendly_error (msg : Str) : Str :=
  if containsSub msg ("No network with SSID".data) then
    "Network not found. It may be out of range or hidden.".data
  else if containsSub msg ("Secrets were required, but not provided".data) then
    "Password required. This network needs a password to connect.".data
  else if containsSub msg ("No suitable device found".data) then
    "No WiFi adapter found. Make sure your WiFi hardware is enabled.".data
  else if containsSub msg ("is not running".data) then
    "NetworkManager is not running. Start it with: sudo systemctl start NetworkManager".data
  else if containsSub msg ("Error: Connection".data) && containsSub msg ("not found".data) then
    "Saved connection not found. It may have already been removed.".data
  else if containsSub msg ("Passwords or encryption keys are required".data) then
    "Incorrect password. Please try again.".data
  else if containsSub msg ("permission".data) || containsSub msg ("not authorized".data) then
    "Permission denied. You may need to run with appropriate privileges.".data
  else if msg = [] then
    "An unknown error occurred.".data
  else msg

/-- `error_needs_password` from src/nmcli.rs: flags a (classified) message as
requiring the password-retry flow. -/
def error_needs_password (msg : Str) : Bool :=
  containsSub msg ("Password required".data) || containsSub msg ("Incorrect password".data)

/-- The friendly category a diagnostic is classified into, mirroring the branch
structure of `friendly_error` one-to-one. -/
inductive ErrCat where
  | notFound
  | pwRequired
  | noAdapter
  | nmNotRunning
  | savedNotFound
  | incorrectPw
  | permDenied
  | unknownEmpty
  | passthrough
deriving DecidableEq

/-- Which branch of `friendly_error` fires for a given raw diagnostic. -/
def catOf (msg : Str) : ErrCat :=
  if containsSub msg ("No network with SSID".data) then .notFound
  else if containsSub msg ("Secrets were required, but not provided".data) then .pwRequired
  else if containsSub msg ("No suitable device found".data) then .noAdapter
  else if containsSub msg ("is not running".data) then .nmNotRunning
  else if containsSub msg ("Error: Connection".data) && containsSub msg ("not found".data) then .savedNotFound
  else if containsSub msg ("Passwords or encryption keys are required".data) then .incorrectPw
  else if containsSub msg ("permission".data) || containsSub msg ("not authorized".data) then .permDenied
  else if msg = [] then .unknownEmpty
  else .passthrough

/-- The friendly text each category renders to (`passthrough` keeps the raw text). -/
def catMessage : ErrCat → Str → Str
  | .notFound, _ => "Network not found. It may be out of range or hidden.".data
  | .pwRequired, _ => "Password required. This network needs a password to connect.".data
  | .noAdapter, _ => "No WiFi adapter found. Make sure your WiFi hardware is enabled.".data
  | .nmNotRunning, _ => "NetworkManager is not running. Start it with: sudo systemctl start NetworkManager".data
  | .savedNotFound, _ => "Saved connection not found. It may have already been removed.".data
  | .incorrectPw, _ => "Incorrect password. Please try again.".data
  | .permDenied, _ => "Permission denied. You may need to run with appropriate privileges.".data
  | .unknownEmpty, _ => "An unknown error occurred.".data
  | .passthrough, msg => msg

theorem friendly_error_eq_catMessage (msg : Str) :
    friendly_error msg = catMessage (catOf msg) msg := by
  unfold friendly_error catOf
  repeat' split
  all_goals simp_all [catMessage]

/-- C4 counterexample: the raw diagnostic "Password required" is not classified
into the password-required or incorrect-password category (it passes through
verbatim), yet the password-needed predicate accepts its classified message, so
the claimed equivalence fails at this concrete input. -/
theorem claim_C4_counterexample :
    ¬ (error_needs_password (friendly_error ("Password required".data)) = true ↔
        (catOf ("Password required".data) = .pwRequired ∨
         catOf ("Password required".data) = .incorrectPw)) := by decide

/-- C4 (amended): the password-needed predicate on the classified message of a
raw diagnostic holds iff classification assigned the password-required or
incorrect-password category, or the text passed through verbatim and itself
contains one of the predicate's two phrases. -/
theorem claim_C4_password_needed_amended (s : Str) :
    error_needs_password (friendly_error s) = true ↔
      (catOf s = .pwRequired ∨ catOf s = .incorrectPw ∨
        (catOf s = .passthrough ∧ error_needs_password s = true)) := by
  rw [friendly_error_eq_catMessage]
  cases hc : catOf s <;> simp [catMessage, hc] <;> decide

/-- C9: error classification is a deterministic substring-matching function:
empty text maps to the generic unknown-error message, unmatched non-empty text
passes through verbatim, and each defined raw-diagnostic substring maps to
exactly its friendly category. -/
theorem claim_C9_classification :
    friendly_error [] = "An unknown error occurred.".data ∧
    (∀ s : Str, catOf s = .passthrough → friendly_error s = s) ∧
    friendly_error ("No network with SSID".data) =
      "Network not found. It may be out of range or hidden.".data ∧
    friendly_error ("Secrets were required, but not provided".data) =
      "Password required. This network needs a password to connect.".data ∧
    friendly_error ("No suitable device found".data) =
      "No WiFi adapter found. Make sure your WiFi hardware is enabled.".data ∧
    friendly_error ("is not running".data) =
      "NetworkManager is not running. Start it with: sudo systemctl start NetworkManager".data ∧
    friendly_error ("Error: Connection MyNet not found".data) =
      "Saved connection not found. It may have already been removed.".data ∧
    friendly_error ("Passwords or encryption keys are required".data) =
      "Incorrect password. Please try again.".data ∧
    friendly_error ("permission".data) =
      "Permission denied. You may need to run with appropriate privileges.".data ∧
    friendly_error ("not authorized".data) =
      "Permission denied. You may need to run with appropriate privileges.".data := by
  refine ⟨by decide, fun s hs => ?_, by decide, by decide, by decide, by decide,
    by decide, by decide, by decide, by decide⟩
  rw [friendly_error_eq_catMessage, hs]
  rfl

/-- Witness for C9: a concrete unmatched non-empty diagnostic passes through
verbatim. -/
theorem claim_C9_classification_witness :
    catOf ("mysterious failure 17".data) = .passthrough ∧
    friendly_error ("mysterious failure 17".data) = "mysterious failure 17".data :=
  ⟨by decide, claim_C9_classification.2.1 _ (by decide)⟩

/-! ### Scan deduplication and sorting (`scan_networks`, src/nmcli.rs:63-105) -/

/-- The `Network` record of src/nmcli.rs. -/
structure Network where
  ssid : Str
  signal : Nat
  security : Str
  in_use : Bool
deriving DecidableEq

/-- `HashMap::get` on the association-list model of `best`. -/
def lookupNet : List (Str × Network) → Str → Option Network
  | [], _ => none
  | (k, v) :: rest, key => if k = key then some v else lookupNet rest key

/-- `HashMap::insert` on an existing key: replace the value in place. -/
def replaceNet : List (Str × Network) → Str → Network → List (Str × Network)
  | [], _, _ => []
  | (k, v) :: rest, key, net =>
    if k = key then (k, net) :: rest else (k, v) :: replaceNet rest key net

/-- One iteration of the dedup loop of `scan_networks` (src/nmcli.rs:71-95):
rows with an empty ssid are skipped; an existing entry for the ssid is replaced
when the new row is in use, or when the existing one is not in use and the new
row has strictly higher signal; otherwise a fresh entry is appended.  The
`HashMap` is modelled as an association list in first-insertion order. -/
def scanStep (best : List (Str × Network)) (net : Network) : List (Str × Network) :=
  if net.ssid = [] then best
  else
    match lookupNet best net.ssid with
    | some existing =>
        if net.in_use || (!existing.in_use && existing.signal < net.signal) then
          replaceNet best net.ssid net
        else best
    | none => best ++ [(net.ssid, net)]

/-- The dedup loop over all parsed scan rows. -/
def scanFold (rows : List Network) : List (Str × Network) := rows.foldl scanStep []

/-- The sort order of src/nmcli.rs:99-103: `a` may come before `b` iff
`b.in_use.cmp(&a.in_use).then(b.signal.cmp(&a.signal))` is not `Greater`,
i.e. in-use first, then signal descending. -/
def netBefore (a b : Network) : Prop :=
  (b.in_use = false ∧ a.in_use = true) ∨ (b.in_use = a.in_use ∧ b.signal ≤ a.signal)

instance : DecidableRel netBefore := fun a b => by
  unfold netBefore; infer_instance

instance : IsTotal Network netBefore :=
  ⟨by
    intro a b
    unfold netBefore
    cases ha : a.in_use <;> cases hb : b.in_use <;> simp <;> omega⟩

instance : IsTrans Network netBefore :=
  ⟨by
    intro a b c hab hbc
    unfold netBefore at *
    cases ha : a.in_use <;> cases hb : b.in_use <;> cases hc : c.in_use <;>
      simp_all <;> omega⟩

/-- The stable sort of `scan_networks`: Rust's stable `sort_by` with the above
comparator, modelled by insertion sort (stable, and agreeing with any stable
sort under the same total preorder). -/
def sortNetworks (l : List Network) : List Network := List.insertionSort netBefore l

/-- The full dedup-then-sort pipeline of `scan_networks` at the parsed-row
level (src/nmcli.rs:63-105). -/
def scanListFrom (rows : List Network) : List Network :=
  sortNetworks ((scanFold rows).map Prod.snd)

/-- The sort key: the pair (in_use, signal). -/
def keyPair (n : Network) : Bool × Nat := (n.in_use, n.signal)

theorem keyPair_eq_of_not_netBefore {a b : Network} (h : ¬ netBefore a b) :
    keyPair b ≠ keyPair a := by
  intro he
  apply h
  unfold netBefore
  unfold keyPair at he
  have h1 : b.in_use = a.in_use := by
    have := congrArg Prod.fst he
    simpa using this
  have h2 : b.signal = a.signal := by
    have := congrArg Prod.snd he
    simpa using this
  exact Or.inr ⟨h1, Nat.le_of_eq h2⟩

theorem filter_orderedInsert (a : Network) (l : List Network) (k : Bool × Nat) :
    (List.orderedInsert netBefore a l).filter (fun n => decide (keyPair n = k)) =
      if keyPair a = k then a :: l.filter (fun n => decide (keyPair n = k))
      else l.filter (fun n => decide (keyPair n = k)) := by
  induction l with
  | nil =>
    simp only [List.orderedInsert, List.filter]
    by_cases hk : keyPair a = k <;> simp [hk]
  | cons b l ih =>
    simp only [List.orderedInsert]
    by_cases hr : netBefore a b
    · rw [if_pos hr]
      by_cases hk : keyPair a = k <;> by_cases hbk : keyPair b = k <;>
        simp [List.filter, hk, hbk]
    · rw [if_neg hr]
      have hne := keyPair_eq_of_not_netBefore hr
      by_cases hk : keyPair a = k
      · have hbk : keyPair b ≠ k := by rw [← hk] at *; exact hne
        simp [List.filter, hbk, ih, hk]
      · by_cases hbk : keyPair b = k <;> simp [List.filter, hbk, ih, hk]

theorem filter_insertionSort (l : List Network) (k : Bool × Nat) :
    (List.insertionSort netBefore l).filter (fun n => decide (keyPair n = k)) =
      l.filter (fun n => decide (keyPair n = k)) := by
  induction l with
  | nil => rfl
  | cons a l ih =>
    simp only [List.insertionSort]
    rw [filter_orderedInsert]
    by_cases hk : keyPair a = k <;> simp [List.filter, hk, ih]

/-- C5: for every input row ordering, the final scan list is ordered by in_use
descending then signal descending, and rows tying on both keys keep their
relative order from the deduplicated collection (the sort is stable). -/
theorem claim_C5_scan_sorted (rows : List Network) :
    List.Sorted netBefore (scanListFrom rows) ∧
    ∀ k : Bool × Nat,
      (scanListFrom rows).filter (fun n => decide (keyPair n = k)) =
        ((scanFold rows).map Prod.snd).filter (fun n => decide (keyPair n = k)) :=
  ⟨List.sorted_insertionSort netBefore _,
   fun k => filter_insertionSort ((scanFold rows).map Prod.snd) k⟩

/-- C1 counterexample: two rows share an ssid and both are in use; the claim
says the higher-signal row (signal 70) must survive, but the code keeps the
later row (signal 40), because a new in-use row always replaces the stored
one. -/
theorem claim_C1_counterexample :
    scanListFrom
        [⟨"Home".data, 70, "WPA2".data, true⟩, ⟨"Home".data, 40, "WPA2".data, true⟩] =
      [⟨"Home".data, 40, "WPA2".data, true⟩] ∧
    scanListFrom
        [⟨"Home".data, 70, "WPA2".data, true⟩, ⟨"Home".data, 40, "WPA2".data, true⟩] ≠
      [⟨"Home".data, 70, "WPA2".data, true⟩] := by decide

/-- The survivor of a duplicate-ssid pair as the dedup loop computes it: the
later row if it is in use; otherwise the earlier row if it is in use;
otherwise the strictly-higher-signal row (the earlier row on ties). -/
def pairSurvivor (r1 r2 : Network) : Network :=
  if r2.in_use then r2
  else if r1.in_use then r1
  else if r1.signal < r2.signal then r2 else r1

/-- C1 (amended): for every pair of scan rows sharing a non-empty ssid, the
surviving row is: the later row when it is in use (even if both are in use and
the earlier has higher signal); otherwise the earlier row when it is in use;
otherwise the row with strictly higher signal, the earlier row on ties. -/
theorem claim_C1_dedup_amended (r1 r2 : Network)
    (hssid : r1.ssid = r2.ssid) (hne : r1.ssid ≠ []) :
    scanListFrom [r1, r2] = [pairSurvivor r1 r2] := by
  have hne2 : r2.ssid ≠ [] := hssid ▸ hne
  have e1 : scanStep [] r1 = [(r1.ssid, r1)] := by
    rw [scanStep, if_neg hne]; simp [lookupNet]
  unfold scanListFrom scanFold
  simp only [List.foldl, e1]
  rw [scanStep, if_neg hne2]
  simp only [lookupNet, ← hssid, if_pos rfl]
  unfold pairSurvivor
  by_cases h2 : r2.in_use
  · simp [h2, replaceNet, sortNetworks, List.insertionSort, List.orderedInsert]
  · by_cases h1 : r1.in_use
    · simp [h2, h1, sortNetworks, List.insertionSort, List.orderedInsert]
    · by_cases hs : r1.signal < r2.signal
      · simp [h2, h1, hs, replaceNet, sortNetworks, List.insertionSort,
          List.orderedInsert]
      · simp [h2, h1, hs, sortNetworks, List.insertionSort, List.orderedInsert]

/-- Witness for C1 (amended): a concrete duplicate-ssid pair with neither row
in use dedupes to the higher-signal row. -/
theorem claim_C1_dedup_amended_witness :
    (("Cafe".data : Str) = "Cafe".data ∧ ("Cafe".data : Str) ≠ []) ∧
    scanListFrom
        [⟨"Cafe".data, 30, [], false⟩, ⟨"Cafe".data, 60, [], false⟩] =
      [pairSurvivor ⟨"Cafe".data, 30, [], false⟩ ⟨"Cafe".data, 60, [], false⟩] :=
  ⟨⟨rfl, by decide⟩,
   claim_C1_dedup_amended ⟨"Cafe".data, 30, [], false⟩ ⟨"Cafe".data, 60, [], false⟩
     rfl (by decide)⟩

/-! ### The App state reducer (src/app.rs) -/

/-- `SavedNetwork` from src/nmcli.rs. -/
structure SavedNetwork where
  name : Str
  active : Bool
deriving DecidableEq

/-- `ConnectionStatus` from src/nmcli.rs. -/
structure ConnectionStatus where
  ssid : Option Str
  signal : Option Nat
  ip : Option Str
  speed : Option Str
deriving DecidableEq

/-- `View` from src/app.rs. -/
inductive View where
  | AvailableNetworks
  | SavedNetworks
deriving DecidableEq

/-- `Modal` from src/app.rs. -/
inductive Modal where
  | PasswordInput
  | ConfirmDisconnect
  | ConfirmForget (name : Str)
  | Message (text : Str)
deriving DecidableEq

/-- `BgStatus` from src/app.rs. -/
inductive BgStatus where
  | Idle
  | Scanning
  | Connecting
  | Disconnecting
  | Forgetting
deriving DecidableEq

/-- `Task` from src/event.rs: requests sent to the background worker. -/
inductive Task where
  | Scan (device : Str)
  | Connect (ssid : Str) (password : Option Str)
  | Disconnect (device : Str)
  | Forget (name : Str)
  | RefreshStatus (device : Str)
  | RefreshSaved
deriving DecidableEq

instance exceptDecEq {ε α : Type} [DecidableEq ε] [DecidableEq α] :
    DecidableEq (Except ε α) := fun x y =>
  match x, y with
  | .ok a, .ok b =>
      if h : a = b then isTrue (by rw [h])
      else isFalse (by intro he; cases he; exact h rfl)
  | .ok _, .error _ => isFalse (by intro he; cases he)
  | .error _, .ok _ => isFalse (by intro he; cases he)
  | .error e, .error f =>
      if h : e = f then isTrue (by rw [h])
      else isFalse (by intro he; cases he; exact h rfl)

/-- `TaskResult` from src/event.rs: results of background tasks. -/
inductive TaskResult where
  | ScanComplete (r : Except Str (List Network))
  | ConnectComplete (r : Except Str Str) (ssid : Str)
  | DisconnectComplete (r : Except Str Str)
  | ForgetComplete (r : Except Str Str)
  | StatusUpdate (status : ConnectionStatus)
  | SavedUpdate (r : Except Str (List SavedNetwork))
deriving DecidableEq

/-- The key codes the App distinguishes (crossterm `KeyCode`); `Other` stands
for every other key. -/
inductive KeyCode where
  | Char (c : Char)
  | Enter
  | Esc
  | Backspace
  | Tab
  | BackTab
  | Up
  | Down
  | Other
deriving DecidableEq

/-- A key event: code plus whether the CONTROL modifier is held. -/
structure KeyEvent where
  code : KeyCode
  ctrl : Bool
deriving DecidableEq

/-- The `App` state of src/app.rs. -/
structure App where
  running : Bool
  view : View
  modal : Option Modal
  bg_status : BgStatus
  networks : List Network
  saved : List SavedNetwork
  status : ConnectionStatus
  device : Str
  net_index : Nat
  saved_index : Nat
  password : Str
  password_visible : Bool
  password_target_ssid : Str
  ticks_since_scan : Nat
  spinner_frame : Nat
deriving DecidableEq

/-- `AUTO_REFRESH_TICKS` (src/app.rs:55). -/
def AUTO_REFRESH_TICKS : Nat := 120

/-- `2^32`: the `u32` counter wraps at this modulus. -/
def U32_MOD : Nat := 4294967296

/-- `App::new` (src/app.rs:58-85). -/
def App.new (device : Str) : App where
  running := true
  view := .AvailableNetworks
  modal := none
  bg_status := .Idle
  networks := []
  saved := []
  status := ⟨none, none, none, none⟩
  device := device
  net_index := 0
  saved_index := 0
  password := []
  password_visible := false
  password_target_ssid := []
  ticks_since_scan := AUTO_REFRESH_TICKS
  spinner_frame := 0

/-- `App::start_scan` (src/app.rs:272-278): set Scanning, reset the counter,
dispatch Scan + RefreshStatus + RefreshSaved. -/
def start_scan (s : App) : App × List Task :=
  ({ s with bg_status := .Scanning, ticks_since_scan := 0 },
   [.Scan s.device, .RefreshStatus s.device, .RefreshSaved])

/-- `App::handle_available_key` (src/app.rs:124-160). -/
def handle_available_key (s : App) (k : KeyEvent) : App × List Task :=
  if k.code = .Up ∨ k.code = .Char 'k' then
    (if s.net_index > 0 then { s with net_index := s.net_index - 1 } else s, [])
  else if k.code = .Down ∨ k.code = .Char 'j' then
    (if s.networks ≠ [] ∧ s.net_index < s.networks.length - 1 then
       { s with net_index := s.net_index + 1 }
     else s, [])
  else if k.code = .Enter then
    if s.bg_status ≠ .Idle then (s, [])
    else
      match s.networks[s.net_index]? with
      | some net =>
          if net.in_use then
            ({ s with modal := some (.Message ("Already connected to this network.".data)) }, [])
          else
            ({ s with bg_status := .Connecting }, [.Connect net.ssid (some [])])
      | none => (s, [])
  else if k.code = .Char 'd' ∨ k.code = .Char 'D' then
    (if s.bg_status = .Idle ∧ s.status.ssid.isSome then
       { s with modal := some .ConfirmDisconnect }
     else s, [])
  else (s, [])

/-- `App::handle_saved_key` (src/app.rs:162-204). -/
def handle_saved_key (s : App) (k : KeyEvent) : App × List Task :=
  if k.code = .Up ∨ k.code = .Char 'k' then
    (if s.saved_index > 0 then { s with saved_index := s.saved_index - 1 } else s, [])
  else if k.code = .Down ∨ k.code = .Char 'j' then
    (if s.saved ≠ [] ∧ s.saved_index < s.saved.length - 1 then
       { s with saved_index := s.saved_index + 1 }
     else s, [])
  else if k.code = .Enter then
    if s.bg_status ≠ .Idle then (s, [])
    else
      match s.saved[s.saved_index]? with
      | some sv =>
          if sv.active then
            ({ s with modal := some (.Message ("Already connected to this network.".data)) }, [])
          else
            ({ s with bg_status := .Connecting }, [.Connect sv.name none])
      | none => (s, [])
  else if k.code = .Char 'f' ∨ k.code = .Char 'F' then
    if s.bg_status ≠ .Idle then (s, [])
    else
      match s.saved[s.saved_index]? with
      | some sv => ({ s with modal := some (.ConfirmForget sv.name) }, [])
      | none => (s, [])
  else if k.code = .Char 'd' ∨ k.code = .Char 'D' then
    (if s.bg_status = .Idle ∧ s.status.ssid.isSome then
       { s with modal := some .ConfirmDisconnect }
     else s, [])
  else (s, [])

/-- The App as constructed at startup for a concrete device name. -/
def app0 : App := App.new ("wlan0".data)

/-- `App::handle_modal_key` (src/app.rs:206-259). -/
def handle_modal_key (s : App) (k : KeyEvent) (m : Modal) : App × List Task :=
  match m with
  | .PasswordInput =>
      if k.code = .Esc then
        ({ s with modal := none, password := [] }, [])
      else if k.code = .Enter then
        ({ s with modal := none, bg_status := .Connecting },
         [.Connect s.password_target_ssid (some s.password)])
      else if k.code = .Backspace then
        ({ s with password := s.password.dropLast }, [])
      else if k.code = .Tab then
        ({ s with password_visible := !s.password_visible }, [])
      else
        match k.code with
        | .Char c => ({ s with password := s.password ++ [c] }, [])
        | _ => (s, [])
  | .ConfirmDisconnect =>
      if k.code = .Char 'y' ∨ k.code = .Char 'Y' then
        ({ s with modal := none, bg_status := .Disconnecting }, [.Disconnect s.device])
      else ({ s with modal := none }, [])
  | .ConfirmForget name =>
      if k.code = .Char 'y' ∨ k.code = .Char 'Y' then
        ({ s with modal := none, bg_status := .Forgetting }, [.Forget name])
      else ({ s with modal := none }, [])
  | .Message _ => ({ s with modal := none }, [])

/-- The global-keys block of `App::handle_key` (src/app.rs:101-121), reached
when no modal is active: quit, view switch, manual refresh, then the
view-specific handler. -/
def handle_global_key (s : App) (k : KeyEvent) : App × List Task :=
  if k.code = .Char 'q' ∨ k.code = .Char 'Q' then ({ s with running := false }, [])
  else if k.code = .Tab ∨ k.code = .BackTab then
    ({ s with view := match s.view with
                      | .AvailableNetworks => .SavedNetworks
                      | .SavedNetworks => .AvailableNetworks }, [])
  else if k.code = .Char 'r' ∨ k.code = .Char 'R' then
    if s.bg_status = .Idle then start_scan s else (s, [])
  else
    match s.view with
    | .AvailableNetworks => handle_available_key s k
    | .SavedNetworks => handle_saved_key s k

/-- `App::handle_key` (src/app.rs:88-122): Ctrl+C always quits; an active
modal gets priority; then the global-keys block. -/
def handle_key (s : App) (k : KeyEvent) : App × List Task :=
  if k.ctrl = true ∧ k.code = .Char 'c' then ({ s with running := false }, [])
  else
    match s.modal with
    | some m => handle_modal_key s k m
    | none => handle_global_key s k

/-- `App::handle_tick` (src/app.rs:262-269): advance the spinner, increment the
(u32) counter, and auto-refresh when the counter reaches the threshold while
Idle (the condition reads the already-incremented counter). -/
def handle_tick (s : App) : App × List Task :=
  if (s.ticks_since_scan + 1) % U32_MOD ≥ AUTO_REFRESH_TICKS ∧ s.bg_status = .Idle then
    start_scan { s with spinner_frame := (s.spinner_frame + 1) % 4,
                        ticks_since_scan := (s.ticks_since_scan + 1) % U32_MOD }
  else
    ({ s with spinner_frame := (s.spinner_frame + 1) % 4,
              ticks_since_scan := (s.ticks_since_scan + 1) % U32_MOD }, [])

/-- `App::handle_task_result` (src/app.rs:281-345). -/
def handle_task_result : App → TaskResult → App
  | s, .ScanComplete (.ok networks) =>
      if s.net_index ≥ networks.length ∧ networks ≠ [] then
        { s with networks := networks, net_index := networks.length - 1,
                 bg_status := .Idle }
      else
        { s with networks := networks, bg_status := .Idle }
  | s, .ScanComplete (.error e) =>
      { s with bg_status := .Idle, modal := some (.Message e) }
  | s, .ConnectComplete (.ok msg) _ =>
      { s with bg_status := .Idle, modal := some (.Message msg),
               ticks_since_scan := AUTO_REFRESH_TICKS }
  | s, .ConnectComplete (.error e) ssid =>
      if error_needs_password e then
        { s with bg_status := .Idle, password := [], password_visible := false,
                 password_target_ssid := ssid, modal := some .PasswordInput }
      else
        { s with bg_status := .Idle, modal := some (.Message e) }
  | s, .DisconnectComplete (.ok msg) =>
      { s with bg_status := .Idle, modal := some (.Message msg),
               ticks_since_scan := AUTO_REFRESH_TICKS }
  | s, .DisconnectComplete (.error e) =>
      { s with bg_status := .Idle, modal := some (.Message e) }
  | s, .ForgetComplete (.ok msg) =>
      { s with bg_status := .Idle, modal := some (.Message msg),
               ticks_since_scan := AUTO_REFRESH_TICKS }
  | s, .ForgetComplete (.error e) =>
      { s with bg_status := .Idle, modal := some (.Message e) }
  | s, .StatusUpdate st => { s with status := st }
  | s, .SavedUpdate (.ok saved) =>
      if s.saved_index ≥ saved.length ∧ saved ≠ [] then
        { s with saved := saved, saved_index := saved.length - 1 }
      else
        { s with saved := saved }
  | s, .SavedUpdate (.error _) => s

/-- The events the main loop receives (src/event.rs). -/
inductive Event where
  | Key (k : KeyEvent)
  | Tick
  | TaskResult (r : TaskResult)
deriving DecidableEq

/-- One reducer step: the next state plus the tasks dispatched during it. -/
def step (s : App) (e : Event) : App × List Task :=
  match e with
  | .Key k => handle_key s k
  | .Tick => handle_tick s
  | .TaskResult r => (handle_task_result s r, [])

/-- Run the reducer over a sequence of events (ignoring dispatched tasks). -/
def runEvents (s : App) (es : List Event) : App :=
  es.foldl (fun s e => (step s e).1) s

/-- A state is reachable when some event sequence drives `App::new` to it. -/
def Reachable (device : Str) (s : App) : Prop :=
  ∃ es : List Event, runEvents (App.new device) es = s

/-! ### Claim C7: password-needed connect errors open the PasswordInput modal -/

/-- C7: for every connect-operation result whose error is classified
password-needed, the App opens the PasswordInput modal (never a Message
modal), pre-clears the password buffer, and records the attempted target name
for the retry. -/
theorem claim_C7_password_modal (s : App) (e ssid : Str)
    (h : error_needs_password e = true) :
    handle_task_result s (.ConnectComplete (.error e) ssid) =
      { s with bg_status := .Idle, password := [], password_visible := false,
               password_target_ssid := ssid, modal := some .PasswordInput } := by
  simp [handle_task_result, h]

/-- Witness for C7: a connect attempt whose stderr contains "Secrets were
required, but not provided" classifies to a password-needed message and opens
PasswordInput with the attempted name retained. -/
theorem claim_C7_password_modal_witness :
    error_needs_password
        (friendly_error ("Error: Secrets were required, but not provided.".data)) = true ∧
    handle_task_result app0
        (.ConnectComplete
          (.error (friendly_error ("Error: Secrets were required, but not provided.".data)))
          ("Cafe".data)) =
      { app0 with bg_status := .Idle, password := [],
                  password_visible := false, password_target_ssid := "Cafe".data,
                  modal := some .PasswordInput } :=
  ⟨by decide, claim_C7_password_modal app0 _ _ (by decide)⟩

/-! ### Claim C8: startup counter and auto-refresh tick -/

/-- C8: at startup the since-last-scan counter equals the auto-refresh
threshold, and on every tick where the incremented counter reaches the
threshold while background-status is Idle, the App dispatches exactly the
three requests Scan, RefreshStatus and RefreshSaved and resets the counter to
zero (entering Scanning). -/
theorem claim_C8_startup_and_tick :
    (∀ device : Str, (App.new device).ticks_since_scan = AUTO_REFRESH_TICKS) ∧
    (∀ s : App, (s.ticks_since_scan + 1) % U32_MOD ≥ AUTO_REFRESH_TICKS →
        s.bg_status = .Idle →
        handle_tick s =
          ({ s with spinner_frame := (s.spinner_frame + 1) % 4,
                    ticks_since_scan := 0, bg_status := .Scanning },
           [.Scan s.device, .RefreshStatus s.device, .RefreshSaved])) := by
  refine ⟨fun _ => rfl, fun s h1 h2 => ?_⟩
  unfold handle_tick
  rw [if_pos ⟨h1, h2⟩]
  rfl

/-- Witness for C8: from the freshly constructed App, the first tick fires the
triple refresh immediately. -/
theorem claim_C8_startup_and_tick_witness :
    (app0.ticks_since_scan + 1) % U32_MOD ≥ AUTO_REFRESH_TICKS ∧
    app0.bg_status = .Idle ∧
    handle_tick app0 =
      ({ app0 with
           spinner_frame := (app0.spinner_frame + 1) % 4,
           ticks_since_scan := 0, bg_status := .Scanning },
       [.Scan app0.device, .RefreshStatus app0.device, .RefreshSaved]) :=
  ⟨by decide, rfl, claim_C8_startup_and_tick.2 app0 (by decide) rfl⟩

/-! ### Claim C2: dispatch only while Idle -/

theorem handle_available_key_tasks (s : App) (k : KeyEvent)
    (h : (handle_available_key s k).2 ≠ []) : s.bg_status = .Idle := by
  unfold handle_available_key at h
  repeat' split at h
  all_goals simp_all

theorem handle_saved_key_tasks (s : App) (k : KeyEvent)
    (h : (handle_saved_key s k).2 ≠ []) : s.bg_status = .Idle := by
  unfold handle_saved_key at h
  repeat' split at h
  all_goals simp_all

theorem handle_global_key_tasks (s : App) (k : KeyEvent)
    (h : (handle_global_key s k).2 ≠ []) : s.bg_status = .Idle := by
  unfold handle_global_key at h
  repeat' split at h
  all_goals first
    | exact handle_available_key_tasks s k h
    | exact handle_saved_key_tasks s k h
    | simp_all

/-- C2 counterexample trace: the initial tick triggers a scan; results for the
status, scan and saved-list requests arrive; the user moves down and hits
Enter on a non-active network; the connect fails password-needed, opening
PasswordInput while Idle; then 120 further ticks elapse, so the auto-refresh
fires with the modal still open, leaving background-status Scanning. -/
def c2trace : List Event :=
  [ .Tick,
    .TaskResult (.StatusUpdate ⟨some ("Home".data), some 50, none, none⟩),
    .TaskResult (.ScanComplete (.ok
      [⟨"Home".data, 50, [], true⟩, ⟨"Cafe".data, 40, [], false⟩])),
    .TaskResult (.SavedUpdate (.ok [])),
    .Key ⟨.Down, false⟩,
    .Key ⟨.Enter, false⟩,
    .TaskResult (.ConnectComplete
      (.error ("Password required. This network needs a password to connect.".data))
      ("Cafe".data)) ]
  ++ List.replicate 120 .Tick

/-- C2 counterexample: in the reachable state at the end of `c2trace` the
PasswordInput modal is open while background-status is Scanning (non-Idle),
and submitting the modal with Enter nevertheless dispatches a Connect request
to the worker — refuting the claim that modal submission never dispatches
while non-Idle. -/
theorem claim_C2_counterexample :
    (runEvents (App.new ("wlan0".data)) c2trace).bg_status = .Scanning ∧
    (runEvents (App.new ("wlan0".data)) c2trace).modal = some .PasswordInput ∧
    (handle_key (runEvents (App.new ("wlan0".data)) c2trace) ⟨.Enter, false⟩).2 =
      [.Connect ("Cafe".data) (some [])] := by decide

/-- C2 (amended): a user-initiated operation dispatched from non-modal key
handling (Enter, d, f, manual refresh) — and likewise a timer-initiated
refresh — occurs only when background-status is Idle; modal confirmations and
PasswordInput submission, however, dispatch without re-checking
background-status (the modal was necessarily opened while Idle, but an
auto-refresh tick may have made the status non-Idle in between). -/
theorem claim_C2_dispatch_amended :
    (∀ (s : App) (k : KeyEvent), s.modal = none →
        (handle_key s k).2 ≠ [] → s.bg_status = .Idle) ∧
    (∀ s : App, (handle_tick s).2 ≠ [] → s.bg_status = .Idle) := by
  constructor
  · intro s k hm h
    unfold handle_key at h
    rw [hm] at h
    by_cases hc : k.ctrl = true ∧ k.code = .Char 'c'
    · rw [if_pos hc] at h
      simp at h
    · rw [if_neg hc] at h
      exact handle_global_key_tasks s k h
  · intro s h
    unfold handle_tick at h
    split at h
    · next hcond => exact hcond.2
    · simp at h

/-- Witness for C2 (amended): pressing the manual-refresh key in the freshly
constructed (modal-free) App dispatches tasks, and indeed the status is Idle. -/
theorem claim_C2_dispatch_amended_witness :
    (app0.modal = none ∧ (handle_key app0 ⟨.Char 'r', false⟩).2 ≠ []) ∧
    app0.bg_status = .Idle :=
  ⟨⟨rfl, by decide⟩,
   claim_C2_dispatch_amended.1 app0 ⟨.Char 'r', false⟩ rfl (by decide)⟩

/-! ### Claim C3: selection indices stay in bounds -/

theorem ne_nil_length {α : Type} (l : List α) : (l ≠ []) = (0 < l.length) := by
  cases l <;> simp

theorem eq_nil_length {α : Type} (l : List α) : (l = []) = (l.length = 0) := by
  cases l <;> simp

/-- The selection-index bound: whenever a stored list is non-empty, its
selection index is strictly below the list's length. -/
def SelInv (s : App) : Prop :=
  (s.networks ≠ [] → s.net_index < s.networks.length) ∧
  (s.saved ≠ [] → s.saved_index < s.saved.length)

/-- C3 counterexample trace: scan two networks, select index 1, manually
refresh, and let the fresh scan come back empty. -/
def c3trace : List Event :=
  [ .Tick,
    .TaskResult (.ScanComplete (.ok
      [⟨"Home".data, 50, [], false⟩, ⟨"Cafe".data, 40, [], false⟩])),
    .Key ⟨.Down, false⟩,
    .Key ⟨.Char 'r', false⟩,
    .TaskResult (.ScanComplete (.ok [])) ]

/-- C3 counterexample: immediately after a scan result replaced the stored
list with an empty one, the networks list is empty yet the selection index is
1, not 0 — refuting the claim that an index is always 0 when its list is
empty. -/
theorem claim_C3_counterexample :
    (runEvents (App.new ("wlan0".data)) c3trace).networks = [] ∧
    (runEvents (App.new ("wlan0".data)) c3trace).net_index = 1 := by decide

theorem selInv_handle_available_key (s : App) (k : KeyEvent) (h : SelInv s) :
    SelInv (handle_available_key s k).1 := by
  unfold SelInv at *
  unfold handle_available_key
  repeat' split
  all_goals simp_all [ne_nil_length]
  all_goals omega

theorem selInv_handle_saved_key (s : App) (k : KeyEvent) (h : SelInv s) :
    SelInv (handle_saved_key s k).1 := by
  unfold SelInv at *
  unfold handle_saved_key
  repeat' split
  all_goals simp_all [ne_nil_length]
  all_goals omega

theorem selInv_handle_modal_key (s : App) (k : KeyEvent) (m : Modal) (h : SelInv s) :
    SelInv (handle_modal_key s k m).1 := by
  unfold SelInv at *
  unfold handle_modal_key
  repeat' split
  all_goals simp_all

theorem selInv_handle_global_key (s : App) (k : KeyEvent) (h : SelInv s) :
    SelInv (handle_global_key s k).1 := by
  unfold handle_global_key
  repeat' split
  all_goals first
    | exact selInv_handle_available_key s k h
    | exact selInv_handle_saved_key s k h
    | simpa [SelInv, start_scan] using h

theorem selInv_handle_key (s : App) (k : KeyEvent) (h : SelInv s) :
    SelInv (handle_key s k).1 := by
  unfold handle_key
  by_cases hc : k.ctrl = true ∧ k.code = .Char 'c'
  · rw [if_pos hc]
    simpa [SelInv] using h
  · rw [if_neg hc]
    cases hm : s.modal with
    | some m => exact selInv_handle_modal_key s k m h
    | none => exact selInv_handle_global_key s k h

theorem selInv_handle_task_result (s : App) (r : TaskResult) (h : SelInv s) :
    SelInv (handle_task_result s r) := by
  obtain ⟨h1, h2⟩ := h
  cases r with
  | ScanComplete res =>
    cases res with
    | ok networks =>
      simp only [handle_task_result]
      split
      · next hc =>
        have hpos : 0 < networks.length := (ne_nil_length networks) ▸ hc.2
        refine ⟨fun _ => ?_, fun hs => h2 hs⟩
        show networks.length - 1 < networks.length
        omega
      · next hc =>
        refine ⟨fun hn => ?_, fun hs => h2 hs⟩
        show s.net_index < networks.length
        rcases Nat.lt_or_ge s.net_index networks.length with hlt | hge
        · exact hlt
        · exact absurd ⟨hge, show networks ≠ [] from hn⟩ hc
    | error e => exact ⟨h1, h2⟩
  | ConnectComplete res ssid =>
    cases res with
    | ok msg => exact ⟨h1, h2⟩
    | error e =>
      simp only [handle_task_result]
      split
      · exact ⟨h1, h2⟩
      · exact ⟨h1, h2⟩
  | DisconnectComplete res =>
    cases res with
    | ok msg => exact ⟨h1, h2⟩
    | error e => exact ⟨h1, h2⟩
  | ForgetComplete res =>
    cases res with
    | ok msg => exact ⟨h1, h2⟩
    | error e => exact ⟨h1, h2⟩
  | StatusUpdate st => exact ⟨h1, h2⟩
  | SavedUpdate res =>
    cases res with
    | ok saved =>
      simp only [handle_task_result]
      split
      · next hc =>
        have hpos : 0 < saved.length := (ne_nil_length saved) ▸ hc.2
        refine ⟨fun hn => h1 hn, fun _ => ?_⟩
        show saved.length - 1 < saved.length
        omega
      · next hc =>
        refine ⟨fun hn => h1 hn, fun hs => ?_⟩
        show s.saved_index < saved.length
        rcases Nat.lt_or_ge s.saved_index saved.length with hlt | hge
        · exact hlt
        · exact absurd ⟨hge, show saved ≠ [] from hs⟩ hc
    | error e => exact ⟨h1, h2⟩

theorem selInv_step (s : App) (e : Event) (h : SelInv s) : SelInv (step s e).1 := by
  cases e with
  | Key k => exact selInv_handle_key s k h
  | Tick =>
      show SelInv (handle_tick s).1
      unfold handle_tick
      split
      · simpa [SelInv, start_scan] using h
      · simpa [SelInv] using h
  | TaskResult r => exact selInv_handle_task_result s r h

theorem selInv_runEvents (es : List Event) (s : App) (h : SelInv s) :
    SelInv (runEvents s es) := by
  induction es generalizing s with
  | nil => exact h
  | cons e es ih => exact ih _ (selInv_step s e h)

/-- C3 (amended): in every reachable App state — in particular after every
operation result that replaces a stored list, and after every key-navigation
step — each selection index is strictly below its list's length whenever that
list is non-empty (clamped to the last valid index when a refresh shrinks the
list); when a refresh empties the list the index keeps its previous value
instead of being reset to 0. -/
theorem claim_C3_selection_amended (device : Str) (s : App)
    (h : Reachable device s) : SelInv s := by
  obtain ⟨es, rfl⟩ := h
  refine selInv_runEvents es _ ?_
  simp [SelInv, App.new]

/-- Witness for C3 (amended): the initial state is reachable and satisfies the
bound. -/
theorem claim_C3_selection_amended_witness :
    Reachable ("wlan0".data) app0 ∧ SelInv app0 :=
  ⟨⟨[], rfl⟩, claim_C3_selection_amended ("wlan0".data) app0 ⟨[], rfl⟩⟩

end WifiTui
